import Mathlib

/-!
Verification of the catalog ingestion pipeline scripts under
backend/src/data/catalogs: the JSON, CSV and PDF extraction loops of
test_multiformat_ingestion.py (and the alias lookups repeated in
test_extraction_time.py), the dedup map built by _add_dedup, and the
spec-described Cache Manager and price parser, which have no code in the
repository and are modelled from the design document.
-/

/-- JSON values as returned by json.load. -/
inductive Json where
  | null
  | bool (b : Bool)
  | num (n : Int)
  | str (s : String)
  | arr (elems : List Json)
  | obj (fields : List (String × Json))

/-- First-match association lookup; Python dicts have unique keys, so this is
dict access for the maps built below. -/
def alookup {α : Type} : List (String × α) → String → Option α
  | [], _ => none
  | (k, v) :: rest, key => if k = key then some v else alookup rest key

/-- Python dict.get(key, default) on a json.load value; .get on a non-dict raises,
the callers below only reach this on dicts. -/
def Json.getD (j : Json) (key : String) (dflt : Json) : Json :=
  match j with
  | .obj fields =>
      match alookup fields key with
      | some v => v
      | none => dflt
  | _ => dflt

/-- Python len() and for-iteration over a json.load value: lists yield their
elements, strings their characters, dicts their keys; numbers, booleans and
null raise TypeError (returned as none). -/
def pyElems : Json → Option (List Json)
  | .arr xs => some xs
  | .str s => some (s.toList.map (fun c => Json.str (String.singleton c)))
  | .obj fields => some (fields.map (fun kv => Json.str kv.1))
  | _ => none

/-- Values usable as Python dict keys (hashable): lists and dicts raise
TypeError when used as a key of dedup_map. -/
inductive PyKey where
  | vNone
  | vBool (b : Bool)
  | vNum (n : Int)
  | vStr (s : String)
deriving DecidableEq

def toKey : Json → Option PyKey
  | .null => some .vNone
  | .bool b => some (.vBool b)
  | .num n => some (.vNum n)
  | .str s => some (.vStr s)
  | .arr _ => none
  | .obj _ => none

/-- An entry of a per-format errors list: the file and the stringified
exception, as appended in the except branches of the tester. -/
structure FileError where
  file : String
  err : String
deriving DecidableEq

/-- _add_dedup: dedup_map.setdefault(product_id, []).append(source), keeping
dict insertion order. -/
def addDedup : List (PyKey × List String) → PyKey → String → List (PyKey × List String)
  | [], pid, src => [(pid, [src])]
  | (k, srcs) :: rest, pid, src =>
      if k = pid then (k, srcs ++ [src]) :: rest
      else (k, srcs) :: addDedup rest pid src

/-- product.get('id', product.get('name', 'unknown')) from test_json_catalogs. -/
def recId (p : Json) : Json :=
  p.getD "id" (p.getD "name" (.str "unknown"))

/-- The dedup key a record produces, defaulting rather than raising; only used
under the recordOk guard, which forces toKey to succeed. -/
def keyOfRecord (p : Json) : PyKey :=
  match toKey (recId p) with
  | some k => k
  | none => .vNone

def isObjJ : Json → Bool
  | .obj _ => true
  | _ => false

/-- A record the JSON loop body handles without raising: a dict whose computed
id is hashable. -/
def recordOk (p : Json) : Bool :=
  isObjJ p && (toKey (recId p)).isSome

/-- One product dict appended by the JSON loop of test_json_catalogs. -/
structure JsonProduct where
  pid : Json
  name : Json
  vendor : Json
  source : String

def mkJsonProduct (fileName : String) (p : Json) : JsonProduct :=
  ⟨recId p, p.getD "name" (.str "N/A"), p.getD "vendor" (.str "N/A"), fileName⟩

/-- The for-product loop of test_json_catalogs: products appended, dedup
insertions made, and the first raised exception if any.  A non-dict element
raises at product.get before the append; an unhashable id raises inside
_add_dedup, after the product was already appended. -/
def jsonLoop (fileName : String) : List Json → List JsonProduct × List (PyKey × String) × Option String
  | [] => ([], [], none)
  | p :: rest =>
      match p with
      | .obj fields =>
          match toKey (recId (Json.obj fields)) with
          | some k =>
              match jsonLoop fileName rest with
              | (ps, ins, e) =>
                  (mkJsonProduct fileName (Json.obj fields) :: ps, (k, fileName) :: ins, e)
          | none => ([mkJsonProduct fileName (Json.obj fields)], [], some "TypeError: unhashable type")
      | _ => ([], [], some "AttributeError: get")

/-- What one file contributes to the tester state: count delta, appended
products, appended errors, dedup insertions. -/
structure FileOutcome where
  count : Nat
  products : List JsonProduct
  errors : List FileError
  inserts : List (PyKey × String)

/-- One iteration of the file loop of test_json_catalogs.  The payload is the
outcome of json.load: a parse error fails the whole file with one error entry;
a non-dict top level raises at data.get; count is increased by len(products)
before the per-product loop runs. -/
def jsonFileOutcome (fileName : String) (payload : Except String Json) : FileOutcome :=
  match payload with
  | .error e => ⟨0, [], [⟨fileName, e⟩], []⟩
  | .ok data =>
      match data with
      | .obj fields =>
          match pyElems (Json.getD (.obj fields) "products" (.arr [])) with
          | some elems =>
              match jsonLoop fileName elems with
              | (ps, ins, none) => ⟨elems.length, ps, [], ins⟩
              | (ps, ins, some e) => ⟨elems.length, ps, [⟨fileName, e⟩], ins⟩
          | none => ⟨0, [], [⟨fileName, "TypeError: len"⟩], []⟩
      | _ => ⟨0, [], [⟨fileName, "AttributeError: get"⟩], []⟩

/-- The tester state touched by test_json_catalogs: results count, products
and errors for the format, plus the shared dedup_map. -/
structure IngestState where
  count : Nat
  products : List JsonProduct
  errors : List FileError
  dedup : List (PyKey × List String)

def emptyState : IngestState := ⟨0, [], [], []⟩

def applyOutcome (st : IngestState) (o : FileOutcome) : IngestState :=
  ⟨st.count + o.count, st.products ++ o.products, st.errors ++ o.errors,
   o.inserts.foldl (fun m kv => addDedup m kv.1 kv.2) st.dedup⟩

/-- test_json_catalogs over its file list (the slice the script processes). -/
def runJsonFiles (files : List (String × Except String Json)) (st : IngestState) : IngestState :=
  files.foldl (fun s q => applyOutcome s (jsonFileOutcome q.1 q.2)) st

/-- The records of a payload, as the loop would see them. -/
def jsonRecords (payload : Except String Json) : List Json :=
  match payload with
  | .ok (.obj fields) =>
      match Json.getD (.obj fields) "products" (.arr []) with
      | .arr xs => xs
      | _ => []
  | _ => []

/-- A payload the JSON path processes without any exception: a dict top level
whose products value (defaulting to the empty list) is a list of records the
loop body handles. -/
def jsonFileValid (payload : Except String Json) : Bool :=
  match payload with
  | .ok (.obj fields) =>
      match Json.getD (.obj fields) "products" (.arr []) with
      | .arr xs => xs.all recordOk
      | _ => false
  | _ => false

/-- The resolved name of a record is a non-empty string (a missing name key
resolves to the placeholder, which passes this check). -/
def jsonNameOk (p : Json) : Bool :=
  match p.getD "name" (.str "N/A") with
  | .str s => !s.isEmpty
  | _ => false

def nameNonEmpty : Json → Bool
  | .str s => !s.isEmpty
  | _ => false

/- ===== CSV: csv.DictReader plus the loop of test_csv_catalogs ===== -/

/-- A DictReader row: header name to cell, with None (padding) cells. -/
abbrev CsvRow := List (String × Option String)

/-- Python dict insert: overwrite in place or append. -/
def putCell : CsvRow → String → Option String → CsvRow
  | [], k, v => [(k, v)]
  | (k0, v0) :: rest, k, v =>
      if k0 = k then (k, v) :: rest else (k0, v0) :: putCell rest k v

/-- One csv.DictReader row: cells zipped with the header, missing columns
padded with the restval None; surplus cells go under the restkey None and are
invisible to row.get(name). -/
def dictReaderRow (header : List String) (raw : List String) : CsvRow :=
  ((header.zip raw).map (fun kv => (kv.1, some kv.2)) ++
    (header.drop raw.length).map (fun k => (k, (none : Option String)))).foldl
    (fun m kv => putCell m kv.1 kv.2) []

/-- csv.DictReader over the data rows: blank rows are skipped, and a row with
a column count mismatch is padded or spilled, never skipped. -/
def dictReaderRows (header : List String) (raws : List (List String)) : List CsvRow :=
  (raws.filter (fun r => !r.isEmpty)).map (dictReaderRow header)

/-- row.get(key): missing key yields Python None, like a padded cell. -/
def rowGet (row : CsvRow) (key : String) : Option String :=
  match alookup row key with
  | some v => v
  | none => none

/-- row.get(key, default) with a string default. -/
def rowGetD (row : CsvRow) (key : String) (dflt : Option String) : Option String :=
  match alookup row key with
  | some v => v
  | none => dflt

/-- Python truthiness of a str-or-None value. -/
def truthy : Option String → Bool
  | some s => !s.isEmpty
  | none => false

/-- Python x or y over str-or-None values. -/
def pyOr (x y : Option String) : Option String :=
  if truthy x then x else y

/-- product_id of test_csv_catalogs:
row.get('Product Name') or row.get('Product') or row.get('id', 'unknown'). -/
def csvName (row : CsvRow) : Option String :=
  pyOr (rowGet row "Product Name") (pyOr (rowGet row "Product") (rowGetD row "id" (some "unknown")))

/-- vendor of test_csv_catalogs:
row.get('Vendor') or row.get('Provider') or 'N/A'. -/
def csvVendor (row : CsvRow) : Option String :=
  pyOr (rowGet row "Vendor") (pyOr (rowGet row "Provider") (some "N/A"))

/-- name of measure_csv_extraction in test_extraction_time.py:
row.get('Product Name') or row.get('Product') or row.get('Service', ''). -/
def csvNameTiming (row : CsvRow) : Option String :=
  pyOr (rowGet row "Product Name") (pyOr (rowGet row "Product") (rowGetD row "Service" (some "")))

/-- vendor of measure_csv_extraction: row.get('Vendor') or row.get('Provider', ''). -/
def csvVendorTiming (row : CsvRow) : Option String :=
  pyOr (rowGet row "Vendor") (rowGetD row "Provider" (some ""))

/-- Spec-worded resolver (section 4.2): try aliases in a fixed priority order,
first present non-empty value wins, else the fallback.  Stated for comparison
with the chains the scripts actually use. -/
def resolveAliases (row : CsvRow) : List String → Option String → Option String
  | [], dflt => dflt
  | a :: rest, dflt =>
      if truthy (rowGet row a) then rowGet row a else resolveAliases row rest dflt

structure CsvProduct where
  pid : Option String
  name : Option String
  vendor : Option String
  source : String

def mkCsvProduct (fileName : String) (row : CsvRow) : CsvProduct :=
  ⟨csvName row, csvName row, csvVendor row, fileName⟩

def keyOfCell : Option String → PyKey
  | some s => .vStr s
  | none => .vNone

structure CsvOutcome where
  count : Nat
  products : List CsvProduct
  errors : List FileError
  inserts : List (PyKey × String)

/-- One iteration of the file loop of test_csv_catalogs; the payload is the
outcome of reading and DictReader-parsing the file into a header and raw data
rows.  No per-row exception is possible: row.get never raises on a dict. -/
def csvFileOutcome (fileName : String) (payload : Except String (List String × List (List String))) : CsvOutcome :=
  match payload with
  | .error e => ⟨0, [], [⟨fileName, e⟩], []⟩
  | .ok (header, raws) =>
      match dictReaderRows header raws with
      | rows =>
          ⟨rows.length, rows.map (mkCsvProduct fileName), [],
           rows.map (fun row => (keyOfCell (csvName row), fileName))⟩

/- ===== PDF: the table loop of test_pdf_catalogs ===== -/

/-- Whitespace for Python str.strip(). -/
def isPySpace (c : Char) : Bool :=
  c = ' ' || c = '\t' || c = '\n' || c = '\r'

/-- Python str.strip(). -/
def pyStrip (s : String) : String :=
  String.mk (((s.toList.dropWhile isPySpace).reverse.dropWhile isPySpace).reverse)

/-- Cells are the strings of the extracted tables (the PDF boundary of the
design delivers per-page tables of cell strings). -/
structure PdfProduct where
  pid : String
  name : String
  vendor : String
  source : String

def pdfRowHasData : List String → Bool
  | [] => false
  | c :: _ => !(c == "")

/-- One data row of a table: skipped when the first cell is empty, otherwise
one product with id and name row[0].strip() and vendor row[1].strip() when a
second cell exists, else 'N/A'. -/
def pdfRowProduct (fileName : String) (row : List String) : Option PdfProduct :=
  match row with
  | [] => none
  | c :: rest =>
      if c = "" then none
      else
        some ⟨pyStrip c, pyStrip c,
              (match rest with
               | v :: _ => pyStrip v
               | [] => "N/A"),
              fileName⟩

/-- test_pdf_catalogs on one extracted table: only tables with more than one
row contribute; row 0 is the header and is never turned into a product. -/
def pdfTableProducts (fileName : String) (table : List (List String)) : List PdfProduct :=
  if 1 < table.length then (table.drop 1).filterMap (pdfRowProduct fileName) else []

def pdfFileProducts (fileName : String) (tables : List (List (List String))) : List PdfProduct :=
  tables.foldl (fun acc t => acc ++ pdfTableProducts fileName t) []

/- ===== Cache Manager, modelled from the spec ===== -/

/-- Modelled from the spec: the Cache Manager of section 4.5 has no code in
the repository (test_e2e_user_simulation.simulate_caching only sleeps); this
is get_or_build over a fingerprint-keyed store with the fixed 24 hour TTL,
lazily checked at read time. -/
structure CacheEntry (α : Type) where
  result : α
  createdAt : Nat
  expiresAt : Nat

def ttlSeconds : Nat := 24 * 60 * 60

structure CacheState (α : Type) where
  entries : List (String × CacheEntry α)

/-- The reply of one get_or_build call: the result, the hit flag, the store
afterwards, and how many times build_fn ran during the call. -/
structure BuildReply (α : Type) where
  result : α
  wasHit : Bool
  state : CacheState α
  builds : Nat

def cachePut {α : Type} : List (String × CacheEntry α) → String → CacheEntry α → List (String × CacheEntry α)
  | [], fp, e => [(fp, e)]
  | (k, v) :: rest, fp, e =>
      if k = fp then (fp, e) :: rest else (k, v) :: cachePut rest fp e

/-- Modelled from the spec: get_or_build(fingerprint, build_fn).  A live entry
is returned with was_hit true and no build; a miss or expired entry runs
build_fn once and stores the result with expiry 24 hours from now. -/
def getOrBuild {α : Type} (st : CacheState α) (now : Nat) (fp : String) (build : Unit → α) : BuildReply α :=
  match alookup st.entries fp with
  | some entry =>
      if now < entry.expiresAt then ⟨entry.result, true, st, 0⟩
      else ⟨build (), false, ⟨cachePut st.entries fp ⟨build (), now, now + ttlSeconds⟩⟩, 1⟩
  | none => ⟨build (), false, ⟨cachePut st.entries fp ⟨build (), now, now + ttlSeconds⟩⟩, 1⟩

/- ===== Price parsing, modelled from the spec ===== -/

inductive Currency where
  | usd
deriving DecidableEq

/-- Modelled from the spec: the parsed price of section 4.2.  No price parser
exists in the repository (generate_pdf_catalogs.py only embeds price strings
such as "$15-100" in fixtures). -/
inductive Price where
  | scalar (amount : ℚ) (currency : Option Currency)
  | range (low high : ℚ) (currency : Option Currency)
  | unpriced (text : String)
deriving DecidableEq

def digitsVal : List Char → Option Nat
  | [] => none
  | cs =>
      if cs.all (fun c => c.isDigit) then
        some (cs.foldl (fun n c => n * 10 + (c.toNat - 48)) 0)
      else none

/-- Split a character list on a separator character. -/
def splitOnChar (sep : Char) : List Char → List (List Char)
  | [] => [[]]
  | c :: rest =>
      if c = sep then [] :: splitOnChar sep rest
      else
        match splitOnChar sep rest with
        | g :: gs => (c :: g) :: gs
        | [] => [[c]]

/-- A plain decimal with optional thousands separators: digits, then an
optional dot and fraction digits. -/
def parseDecimal (cs : List Char) : Option ℚ :=
  match splitOnChar '.' (cs.filter (fun c => c ≠ ',')) with
  | [w] => (digitsVal w).map (fun n => (n : ℚ))
  | [w, fr] =>
      match digitsVal w, digitsVal fr with
      | some nw, some nf => some ((nw : ℚ) + (nf : ℚ) / ((10 : ℚ) ^ fr.length))
      | _, _ => none
  | _ => none

def priceSentinels : List String := ["Pay-as-you-go", "Custom pricing"]

/-- One decimal, or a low-high range sharing the one currency. -/
def parseAmount (cs : List Char) (cur : Option Currency) : Option Price :=
  match splitOnChar '-' cs with
  | [a] => (parseDecimal a).map (fun q => Price.scalar q cur)
  | [a, b] =>
      match parseDecimal a, parseDecimal b with
      | some qa, some qb => some (.range qa qb cur)
      | _, _ => none
  | _ => none

/-- Modelled from the spec: price parsing of section 4.2 — sentinels preserved
verbatim as unpriced, an optional leading currency symbol, then either one
decimal or a low-high range sharing the currency. -/
def parsePrice (s : String) : Option Price :=
  let t := pyStrip s
  if t ∈ priceSentinels then some (.unpriced t)
  else
    match t.toList with
    | '$' :: rest => parseAmount rest (some .usd)
    | cs => parseAmount cs none

/-- A one-product JSON catalog payload with a name and vendor and no id, as a
pair of sources in the dedup scenario would supply. -/
def oneProductFile (nm vd : String) : Except String Json :=
  .ok (.obj [("products", .arr [.obj [("name", .str nm), ("vendor", .str vd)]])])

/-! Helper lemmas and the claim theorems. -/

theorem jsonLoop_ok (f : String) (xs : List Json) (h : xs.all recordOk = true) :
    jsonLoop f xs = (xs.map (mkJsonProduct f), xs.map (fun x => (keyOfRecord x, f)), none) := by
  induction xs with
  | nil => rfl
  | cons x rest ih =>
      rw [List.all_cons, Bool.and_eq_true] at h
      obtain ⟨hx, hrest⟩ := h
      cases x with
      | obj fields =>
          have hsome : (toKey (recId (Json.obj fields))).isSome = true := by
            simpa [recordOk, isObjJ] using hx
          cases hk : toKey (recId (Json.obj fields)) with
          | none => rw [hk] at hsome; simp at hsome
          | some k =>
              simp [jsonLoop, hk, keyOfRecord, ih hrest]
      | null => simp [recordOk, isObjJ] at hx
      | bool b => simp [recordOk, isObjJ] at hx
      | num n => simp [recordOk, isObjJ] at hx
      | str s => simp [recordOk, isObjJ] at hx
      | arr l => simp [recordOk, isObjJ] at hx

theorem jsonOutcome_of_valid (f : String) (payload : Except String Json)
    (hv : jsonFileValid payload = true) :
    jsonFileOutcome f payload =
      ⟨(jsonRecords payload).length,
       (jsonRecords payload).map (mkJsonProduct f),
       [],
       (jsonRecords payload).map (fun x => (keyOfRecord x, f))⟩ := by
  cases payload with
  | error e => simp [jsonFileValid] at hv
  | ok data =>
      cases data with
      | obj fields =>
          simp only [jsonFileValid] at hv
          simp only [jsonFileOutcome, jsonRecords]
          cases hp : Json.getD (.obj fields) "products" (.arr []) with
          | arr xs =>
              rw [hp] at hv
              simp only [pyElems, jsonLoop_ok f xs hv, List.length_map]
          | null => rw [hp] at hv; simp at hv
          | bool b => rw [hp] at hv; simp at hv
          | num n => rw [hp] at hv; simp at hv
          | str s => rw [hp] at hv; simp at hv
          | obj kvs => rw [hp] at hv; simp at hv
      | null => simp [jsonFileValid] at hv
      | bool b => simp [jsonFileValid] at hv
      | num n => simp [jsonFileValid] at hv
      | str s => simp [jsonFileValid] at hv
      | arr l => simp [jsonFileValid] at hv

theorem runJson_decomp (files : List (String × Except String Json)) (st : IngestState) :
    runJsonFiles files st =
      ⟨st.count + (files.map (fun q => (jsonFileOutcome q.1 q.2).count)).sum,
       st.products ++ files.flatMap (fun q => (jsonFileOutcome q.1 q.2).products),
       st.errors ++ files.flatMap (fun q => (jsonFileOutcome q.1 q.2).errors),
       (files.flatMap (fun q => (jsonFileOutcome q.1 q.2).inserts)).foldl
         (fun m kv => addDedup m kv.1 kv.2) st.dedup⟩ := by
  induction files generalizing st with
  | nil => simp [runJsonFiles]
  | cons q rest ih =>
      simp only [runJsonFiles, List.foldl_cons] at ih ⊢
      rw [ih]
      simp [applyOutcome, List.foldl_append, Nat.add_assoc, List.append_assoc]

theorem alookup_putCell_ne (m : CsvRow) (k0 k : String) (v : Option String) (h : k0 ≠ k) :
    alookup (putCell m k0 v) k = alookup m k := by
  induction m with
  | nil => simp [putCell, alookup, h]
  | cons kv rest ih =>
      obtain ⟨k1, v1⟩ := kv
      by_cases h1 : k1 = k0
      · subst h1
        simp [putCell, alookup, h]
      · by_cases h2 : k1 = k
        · subst h2
          simp [putCell, alookup, h1]
        · simp [putCell, alookup, h1, h2, ih]

theorem foldl_putCell_of_absent (pairs : CsvRow) (init : CsvRow) (k : String)
    (h : ∀ kv ∈ pairs, kv.1 ≠ k) :
    alookup (pairs.foldl (fun m kv => putCell m kv.1 kv.2) init) k = alookup init k := by
  induction pairs generalizing init with
  | nil => rfl
  | cons kv rest ih =>
      simp only [List.foldl_cons]
      rw [ih (putCell init kv.1 kv.2) (fun p hp => h p (List.mem_cons_of_mem kv hp))]
      exact alookup_putCell_ne init kv.1 k kv.2 (h kv (List.mem_cons_self kv rest))

theorem dictReaderRow_absent (header : List String) (raw : List String) (k : String)
    (h : k ∉ header) :
    alookup (dictReaderRow header raw) k = none := by
  unfold dictReaderRow
  rw [foldl_putCell_of_absent]
  · rfl
  · intro kv hkv
    rcases List.mem_append.mp hkv with hz | hd
    · obtain ⟨⟨a, b⟩, hab, rfl⟩ := List.mem_map.mp hz
      intro hak
      exact h (hak ▸ (List.of_mem_zip hab).1)
    · obtain ⟨a, ha, rfl⟩ := List.mem_map.mp hd
      intro hak
      exact h (hak ▸ List.mem_of_mem_drop ha)

theorem csvName_truthy (row : CsvRow) (h : alookup row "id" = none) :
    truthy (csvName row) = true := by
  unfold csvName rowGetD pyOr
  rw [h]
  by_cases h1 : truthy (rowGet row "Product Name")
  · simp [h1]
  · by_cases h2 : truthy (rowGet row "Product")
    · simp [h1, h2]
    · rw [if_neg h1, if_neg h2]
      rfl

theorem pdfRowProduct_isSome (f : String) (row : List String) :
    (pdfRowProduct f row).isSome = pdfRowHasData row := by
  cases row with
  | nil => rfl
  | cons c rest =>
      by_cases hc : c = ""
      · subst hc
        simp [pdfRowProduct, pdfRowHasData]
      · simp [pdfRowProduct, pdfRowHasData, hc]

theorem pdf_filterMap_length (f : String) (rows : List (List String)) :
    (rows.filterMap (pdfRowProduct f)).length = (rows.filter pdfRowHasData).length := by
  induction rows with
  | nil => rfl
  | cons r rest ih =>
      by_cases hr : pdfRowHasData r = true
      · have hs : (pdfRowProduct f r).isSome = true := (pdfRowProduct_isSome f r).trans hr
        obtain ⟨p, hp⟩ := Option.isSome_iff_exists.mp hs
        simp [List.filterMap_cons, List.filter_cons, hr, hp, ih]
      · have hs : (pdfRowProduct f r).isSome = false := by
          rw [pdfRowProduct_isSome f r]
          exact Bool.not_eq_true _ ▸ (by simpa using hr)
        have hn : pdfRowProduct f r = none := Option.not_isSome_iff_eq_none.mp (by simp [hs])
        simp [List.filterMap_cons, List.filter_cons, hr, hn, ih]

theorem alookup_cachePut_self {α : Type} (es : List (String × CacheEntry α)) (fp : String) (e : CacheEntry α) :
    alookup (cachePut es fp e) fp = some e := by
  induction es with
  | nil => simp [cachePut, alookup]
  | cons kv rest ih =>
      obtain ⟨k, v⟩ := kv
      by_cases hk : k = fp
      · subst hk
        simp [cachePut, alookup]
      · simp [cachePut, alookup, hk, ih]

/-- Claim C5: calling get_or_build twice with the same fingerprint and no
intervening expiry returns the identical ExtractionResult both times, with
was_hit false then true, and the second call never runs build_fn. -/
theorem get_or_build_idempotent {α : Type} (st : CacheState α) (fp : String)
    (t1 t2 : Nat) (build : Unit → α)
    (hmiss : alookup st.entries fp = none) (h12 : t1 ≤ t2)
    (hexp : t2 < t1 + ttlSeconds) :
    (getOrBuild st t1 fp build).wasHit = false ∧
    (getOrBuild (getOrBuild st t1 fp build).state t2 fp build).wasHit = true ∧
    (getOrBuild (getOrBuild st t1 fp build).state t2 fp build).result =
      (getOrBuild st t1 fp build).result ∧
    (getOrBuild st t1 fp build).builds = 1 ∧
    (getOrBuild (getOrBuild st t1 fp build).state t2 fp build).builds = 0 := by
  have h1 : getOrBuild st t1 fp build =
      ⟨build (), false, ⟨cachePut st.entries fp ⟨build (), t1, t1 + ttlSeconds⟩⟩, 1⟩ := by
    unfold getOrBuild
    rw [hmiss]
  rw [h1]
  have h2 : alookup (cachePut st.entries fp ⟨build (), t1, t1 + ttlSeconds⟩) fp =
      some ⟨build (), t1, t1 + ttlSeconds⟩ := alookup_cachePut_self st.entries fp _
  unfold getOrBuild
  rw [h2]
  simp [hexp]

/-- Witness for C5 at a concrete store, fingerprint, build function and times. -/
theorem get_or_build_idempotent_witness :
    alookup (CacheState.entries (⟨[]⟩ : CacheState Nat)) "fp-1" = none ∧
    (getOrBuild (⟨[]⟩ : CacheState Nat) 0 "fp-1" (fun _ => 42)).wasHit = false ∧
    (getOrBuild (getOrBuild (⟨[]⟩ : CacheState Nat) 0 "fp-1" (fun _ => 42)).state 600 "fp-1"
        (fun _ => 42)).wasHit = true ∧
    (getOrBuild (getOrBuild (⟨[]⟩ : CacheState Nat) 0 "fp-1" (fun _ => 42)).state 600 "fp-1"
        (fun _ => 42)).result =
      (getOrBuild (⟨[]⟩ : CacheState Nat) 0 "fp-1" (fun _ => 42)).result ∧
    (getOrBuild (getOrBuild (⟨[]⟩ : CacheState Nat) 0 "fp-1" (fun _ => 42)).state 600 "fp-1"
        (fun _ => 42)).builds = 0 := by
  have h := get_or_build_idempotent (⟨[]⟩ : CacheState Nat) "fp-1" 0 600 (fun _ => 42)
    rfl (by decide) (by decide)
  exact ⟨rfl, h.1, h.2.1, h.2.2.1, h.2.2.2.2⟩

/-- Claim C9: "$15-100" parses to a range with min 15, max 100 and the single
currency USD, not to a scalar, and the sentinels "Pay-as-you-go" and
"Custom pricing" are preserved verbatim as unpriced tags. -/
theorem price_range_and_sentinels :
    parsePrice "$15-100" = some (Price.range 15 100 (some Currency.usd)) ∧
    parsePrice "Pay-as-you-go" = some (Price.unpriced "Pay-as-you-go") ∧
    parsePrice "Custom pricing" = some (Price.unpriced "Custom pricing") ∧
    (∀ q c, Price.range 15 100 (some Currency.usd) ≠ Price.scalar q c) ∧
    (∀ t q c, Price.unpriced t ≠ Price.scalar q c) := by
  refine ⟨by decide, by decide, by decide, ?_, ?_⟩
  · intro q c hq
    exact Price.noConfusion hq
  · intro t q c hq
    exact Price.noConfusion hq

/-- Claim C10: a payload that is a valid JSON object with no products key
contributes zero products and no error entry: it is silently an empty catalog. -/
theorem missing_products_key_silent_empty (f : String) (fields : List (String × Json))
    (h : alookup fields "products" = none) :
    jsonFileOutcome f (.ok (.obj fields)) = ⟨0, [], [], []⟩ := by
  simp only [jsonFileOutcome, Json.getD, h]
  rfl

/-- Witness for C10 at a concrete object payload without a products key. -/
theorem missing_products_key_silent_empty_witness :
    alookup [("catalog_name", Json.str "c")] "products" = none ∧
    jsonFileOutcome "k.json" (.ok (.obj [("catalog_name", Json.str "c")])) = ⟨0, [], [], []⟩ :=
  ⟨rfl, missing_products_key_silent_empty "k.json" [("catalog_name", Json.str "c")] rfl⟩

/-- Claim C4: a file whose JSON fails to parse fails as a whole with one
file-level error, contributes zero products and no dedup insertions, and the
run over the remaining files is unchanged, with the failed file reported in
the error list in position. -/
theorem malformed_json_single_error_continue
    (pre post : List (String × Except String Json)) (f e : String) :
    jsonFileOutcome f (.error e) = ⟨0, [], [⟨f, e⟩], []⟩ ∧
    (runJsonFiles (pre ++ (f, .error e) :: post) emptyState).count =
      (runJsonFiles (pre ++ post) emptyState).count ∧
    (runJsonFiles (pre ++ (f, .error e) :: post) emptyState).products =
      (runJsonFiles (pre ++ post) emptyState).products ∧
    (runJsonFiles (pre ++ (f, .error e) :: post) emptyState).dedup =
      (runJsonFiles (pre ++ post) emptyState).dedup ∧
    (runJsonFiles (pre ++ (f, .error e) :: post) emptyState).errors =
      (runJsonFiles pre emptyState).errors ++
        ⟨f, e⟩ :: post.flatMap (fun q => (jsonFileOutcome q.1 q.2).errors) := by
  refine ⟨rfl, ?_, ?_, ?_, ?_⟩ <;>
    simp [runJson_decomp, emptyState, List.flatMap_append, List.map_append,
      List.sum_append, jsonFileOutcome]

/-- Counterexample to claim C1 as stated: a valid JSON file whose one record
carries an explicitly empty name yields a returned product with an empty name
(and a valid CSV with an id column holding an empty cell does the same), so
not every returned product of a valid input has a non-empty name. -/
theorem json_empty_name_passes_through :
    jsonFileValid (.ok (.obj [("products", .arr [.obj [("name", .str "")]])])) = true ∧
    (jsonFileOutcome "g.json"
      (.ok (.obj [("products", .arr [.obj [("name", .str "")]])]))).count = 1 ∧
    (jsonFileOutcome "g.json"
      (.ok (.obj [("products", .arr [.obj [("name", .str "")]])]))).products.map
        (fun r => r.name) = [.str ""] ∧
    nameNonEmpty (.str "") = false ∧
    (csvFileOutcome "h.csv" (.ok (["id"], [[""]]))).count = 1 ∧
    (csvFileOutcome "h.csv" (.ok (["id"], [[""]]))).products.map (fun r => r.name) =
      [some ""] ∧
    truthy (some "") = false :=
  ⟨rfl, rfl, rfl, rfl, rfl, rfl, rfl⟩

/-- Claim C1 (amended): for every valid JSON file and every CSV file the
extracted count equals the number of returned products, unconditionally; every
returned product additionally has a non-empty name provided no JSON record
carries an explicitly empty or non-string name value (a missing key becomes
the placeholder) and the CSV has no id column (an empty id cell passes through
as the name). -/
theorem extracted_count_matches_and_placeholder_names
    (f g : String) (payload : Except String Json)
    (header : List String) (raws : List (List String))
    (hv : jsonFileValid payload = true) :
    (jsonFileOutcome f payload).count = (jsonFileOutcome f payload).products.length ∧
    ((jsonRecords payload).all jsonNameOk = true →
      ∀ r ∈ (jsonFileOutcome f payload).products, nameNonEmpty r.name = true) ∧
    (csvFileOutcome g (.ok (header, raws))).count =
      (csvFileOutcome g (.ok (header, raws))).products.length ∧
    ("id" ∉ header →
      ∀ r ∈ (csvFileOutcome g (.ok (header, raws))).products, truthy r.name = true) := by
  refine ⟨?_, ?_, ?_, ?_⟩
  · rw [jsonOutcome_of_valid f payload hv]
    simp
  · intro hn r hr
    rw [jsonOutcome_of_valid f payload hv] at hr
    simp only [List.mem_map] at hr
    obtain ⟨x, hx, rfl⟩ := hr
    have hok := List.all_eq_true.mp hn x hx
    unfold jsonNameOk at hok
    show nameNonEmpty (x.getD "name" (.str "N/A")) = true
    cases hgd : x.getD "name" (.str "N/A") with
    | str s => rw [hgd] at hok; exact hok
    | null => rw [hgd] at hok; simp at hok
    | bool b => rw [hgd] at hok; simp at hok
    | num n => rw [hgd] at hok; simp at hok
    | arr l => rw [hgd] at hok; simp at hok
    | obj kvs => rw [hgd] at hok; simp at hok
  · simp [csvFileOutcome]
  · intro hid r hr
    simp only [csvFileOutcome, List.mem_map] at hr
    obtain ⟨row, hrow, rfl⟩ := hr
    unfold dictReaderRows at hrow
    obtain ⟨raw, hraw, rfl⟩ := List.mem_map.mp hrow
    exact csvName_truthy _ (dictReaderRow_absent header raw "id" hid)

/-- Witness for C1 at one concrete valid JSON payload and one concrete CSV
(the CSV one exercising an id column, where the count equality still holds). -/
theorem extracted_count_matches_witness :
    jsonFileValid (.ok (.obj [("products", .arr [.obj [("name", .str "Laptop")]])])) = true ∧
    (jsonFileOutcome "a.json"
        (.ok (.obj [("products", .arr [.obj [("name", .str "Laptop")]])]))).count =
      (jsonFileOutcome "a.json"
        (.ok (.obj [("products", .arr [.obj [("name", .str "Laptop")]])]))).products.length ∧
    (csvFileOutcome "b.csv" (.ok (["id", "Vendor"], [["", "V"], ["x7"]]))).count =
      (csvFileOutcome "b.csv" (.ok (["id", "Vendor"], [["", "V"], ["x7"]]))).products.length :=
  ⟨rfl,
    (extracted_count_matches_and_placeholder_names "a.json" "b.csv"
      (.ok (.obj [("products", .arr [.obj [("name", .str "Laptop")]])]))
      ["id", "Vendor"] [["", "V"], ["x7"]] rfl).1,
    (extracted_count_matches_and_placeholder_names "a.json" "b.csv"
      (.ok (.obj [("products", .arr [.obj [("name", .str "Laptop")]])]))
      ["id", "Vendor"] [["", "V"], ["x7"]] rfl).2.2.1⟩

/-- Counterexample to claim C2 as stated: two sources each with a product
named "Google Pixel 8 Pro" and vendor "Google", but with distinct explicit
ids, end up in two singleton clusters — the dedup map keys on the id (name
only as fallback) and ignores the vendor, so same name plus same vendor does
not imply a merged two-member cluster. -/
theorem same_name_distinct_ids_not_merged :
    (runJsonFiles
      [("a.json", .ok (.obj [("products", .arr [.obj [("id", .str "pix-1"),
          ("name", .str "Google Pixel 8 Pro"), ("vendor", .str "Google")]])])),
       ("b.json", .ok (.obj [("products", .arr [.obj [("id", .str "pix-2"),
          ("name", .str "Google Pixel 8 Pro"), ("vendor", .str "Google")]])]))]
      emptyState).products.map (fun r => r.name) =
        [.str "Google Pixel 8 Pro", .str "Google Pixel 8 Pro"] ∧
    (runJsonFiles
      [("a.json", .ok (.obj [("products", .arr [.obj [("id", .str "pix-1"),
          ("name", .str "Google Pixel 8 Pro"), ("vendor", .str "Google")]])])),
       ("b.json", .ok (.obj [("products", .arr [.obj [("id", .str "pix-2"),
          ("name", .str "Google Pixel 8 Pro"), ("vendor", .str "Google")]])]))]
      emptyState).products.map (fun r => r.vendor) = [.str "Google", .str "Google"] ∧
    (runJsonFiles
      [("a.json", .ok (.obj [("products", .arr [.obj [("id", .str "pix-1"),
          ("name", .str "Google Pixel 8 Pro"), ("vendor", .str "Google")]])])),
       ("b.json", .ok (.obj [("products", .arr [.obj [("id", .str "pix-2"),
          ("name", .str "Google Pixel 8 Pro"), ("vendor", .str "Google")]])]))]
      emptyState).dedup = [(.vStr "pix-1", ["a.json"]), (.vStr "pix-2", ["b.json"])] ∧
    (runJsonFiles
      [("a.json", .ok (.obj [("products", .arr [.obj [("id", .str "pix-1"),
          ("name", .str "Google Pixel 8 Pro"), ("vendor", .str "Google")]])])),
       ("b.json", .ok (.obj [("products", .arr [.obj [("id", .str "pix-2"),
          ("name", .str "Google Pixel 8 Pro"), ("vendor", .str "Google")]])]))]
      emptyState).dedup.all (fun kv => kv.2.length == 1) = true :=
  ⟨rfl, rfl, rfl, rfl⟩

/-- Claim C2 (amended): two sources whose products share the dedup key — the
explicit id when present, here the name since no id is given — merge into one
cluster with exactly two members regardless of their vendors, and a third
product with a different name forms a singleton cluster. -/
theorem dedup_merges_on_name_key (n m v1 v2 v3 s1 s2 s3 : String) (hnm : n ≠ m) :
    (runJsonFiles
      [(s1, oneProductFile n v1), (s2, oneProductFile n v2), (s3, oneProductFile m v3)]
      emptyState).dedup = [(.vStr n, [s1, s2]), (.vStr m, [s3])] := by
  simp [runJsonFiles, applyOutcome, oneProductFile, jsonFileOutcome, Json.getD,
    alookup, pyElems, jsonLoop, recId, toKey, mkJsonProduct, addDedup, emptyState, hnm]

/-- Witness for C2 at the spec scenario: two sources with "Google Pixel 8 Pro"
and the same vendor merge into one two-member cluster, a third unrelated
product is a singleton. -/
theorem dedup_merges_on_name_key_witness :
    ("Google Pixel 8 Pro" : String) ≠ "Unrelated Gadget" ∧
    (runJsonFiles
      [("s1.json", oneProductFile "Google Pixel 8 Pro" "Google"),
       ("s2.json", oneProductFile "Google Pixel 8 Pro" "Google"),
       ("s3.json", oneProductFile "Unrelated Gadget" "Acme")]
      emptyState).dedup =
      [(.vStr "Google Pixel 8 Pro", ["s1.json", "s2.json"]),
       (.vStr "Unrelated Gadget", ["s3.json"])] :=
  ⟨by decide,
    dedup_merges_on_name_key "Google Pixel 8 Pro" "Unrelated Gadget" "Google" "Google"
      "Acme" "s1.json" "s2.json" "s3.json" (by decide)⟩

/-- Counterexample to claim C3 as stated: a CSV with 7 well-formed data rows
and 1 row with a wrong column count yields 8 products, an extracted count of
8 and an empty error list — the malformed row is padded by DictReader and
normalized like any other, not skipped, and no RowParseError exists. -/
theorem malformed_csv_row_not_skipped :
    (csvFileOutcome "e.csv" (.ok (["Product Name", "Vendor", "Price"],
      [["Laptop", "Acme", "999"], ["Phone", "Bd", "500"], ["Tablet", "Acme", "300"],
       ["Watch", "Bd", "200"], ["Camera", "Acme", "700"], ["Printer", "Bd", "150"],
       ["Router", "Acme", "80"], ["Broken", "OnlyTwo"]]))).count = 8 ∧
    (csvFileOutcome "e.csv" (.ok (["Product Name", "Vendor", "Price"],
      [["Laptop", "Acme", "999"], ["Phone", "Bd", "500"], ["Tablet", "Acme", "300"],
       ["Watch", "Bd", "200"], ["Camera", "Acme", "700"], ["Printer", "Bd", "150"],
       ["Router", "Acme", "80"], ["Broken", "OnlyTwo"]]))).products.length = 8 ∧
    (csvFileOutcome "e.csv" (.ok (["Product Name", "Vendor", "Price"],
      [["Laptop", "Acme", "999"], ["Phone", "Bd", "500"], ["Tablet", "Acme", "300"],
       ["Watch", "Bd", "200"], ["Camera", "Acme", "700"], ["Printer", "Bd", "150"],
       ["Router", "Acme", "80"], ["Broken", "OnlyTwo"]]))).errors = [] :=
  ⟨rfl, rfl, rfl⟩

/-- Claim C3 (amended): the CSV reader records no row-level errors and skips
only blank rows: every non-blank data row — column count mismatch or not — is
padded or spilled by DictReader, counted and normalized into a product, so the
7-good-plus-1-malformed scenario yields 8 products, 0 errors, count 8. -/
theorem csv_rows_never_skipped_no_errors (f : String) (header : List String)
    (raws : List (List String)) :
    (csvFileOutcome f (.ok (header, raws))).count =
      (raws.filter (fun r => !r.isEmpty)).length ∧
    (csvFileOutcome f (.ok (header, raws))).products.length =
      (raws.filter (fun r => !r.isEmpty)).length ∧
    (csvFileOutcome f (.ok (header, raws))).errors = [] := by
  refine ⟨?_, ?_, rfl⟩ <;> simp [csvFileOutcome, dictReaderRows]

/-- Counterexample to claim C6 as stated: a CSV row offering non-empty values
under the claimed aliases name and vendor (lower case) resolves to the
fallbacks — the scripts never try the keys name, vendor for CSV, so the
claimed alias lists are not the ones used. -/
theorem lowercase_aliases_ignored :
    rowGet (dictReaderRow ["name", "vendor"] ["Widget", "Acme"]) "name" = some "Widget" ∧
    rowGet (dictReaderRow ["name", "vendor"] ["Widget", "Acme"]) "vendor" = some "Acme" ∧
    csvName (dictReaderRow ["name", "vendor"] ["Widget", "Acme"]) = some "unknown" ∧
    csvVendor (dictReaderRow ["name", "vendor"] ["Widget", "Acme"]) = some "N/A" ∧
    csvNameTiming (dictReaderRow ["name", "vendor"] ["Widget", "Acme"]) = some "" ∧
    csvVendorTiming (dictReaderRow ["name", "vendor"] ["Widget", "Acme"]) = some "" :=
  ⟨rfl, rfl, rfl, rfl, rfl, rfl⟩

/-- Claim C6 (amended): resolution does try a fixed priority list per script
with the first present non-empty value winning, but the lists are
Product Name, Product with fallback id (default unknown) — or Service
(default empty) in the timing script — for the name, and Vendor, Provider
for the vendor; lower-case name and vendor are never consulted for CSV. -/
theorem alias_resolution_actual_order (row : CsvRow) :
    csvName row =
      resolveAliases row ["Product Name", "Product"] (rowGetD row "id" (some "unknown")) ∧
    csvVendor row = resolveAliases row ["Vendor", "Provider"] (some "N/A") ∧
    csvNameTiming row =
      resolveAliases row ["Product Name", "Product"] (rowGetD row "Service" (some "")) ∧
    csvVendorTiming row = resolveAliases row ["Vendor"] (rowGetD row "Provider" (some "")) :=
  ⟨rfl, rfl, rfl, rfl⟩

/-- Claim C7: in a table with more than one row, row 0 is only a header (the
products do not depend on it), each later row with a non-empty first cell
yields exactly one product record, and each row with an empty first cell (or
no cells) yields none. -/
theorem pdf_table_header_and_row_filter (f : String) (rest : List (List String))
    (hne : rest ≠ []) :
    (∀ h1 : List String, pdfTableProducts f (h1 :: rest) = rest.filterMap (pdfRowProduct f)) ∧
    (∀ r : List String, (pdfRowProduct f r).isSome = pdfRowHasData r) ∧
    (rest.filterMap (pdfRowProduct f)).length = (rest.filter pdfRowHasData).length := by
  refine ⟨?_, pdfRowProduct_isSome f, pdf_filterMap_length f rest⟩
  intro h1
  unfold pdfTableProducts
  rw [if_pos]
  · rfl
  · have := List.length_pos.mpr hne
    simp only [List.length_cons]
    omega

/-- Witness for C7 at a concrete three-row table with a separator row. -/
theorem pdf_table_header_and_row_filter_witness :
    ([["MacBook ", "Apple"], ["", "x"], ["iPad"]] : List (List String)) ≠ [] ∧
    pdfTableProducts "t.pdf"
        (["Product", "Vendor"] :: [["MacBook ", "Apple"], ["", "x"], ["iPad"]]) =
      [⟨"MacBook", "MacBook", "Apple", "t.pdf"⟩, ⟨"iPad", "iPad", "N/A", "t.pdf"⟩] :=
  ⟨by decide,
    ((pdf_table_header_and_row_filter "t.pdf" [["MacBook ", "Apple"], ["", "x"], ["iPad"]]
      (by decide)).1 ["Product", "Vendor"]).trans rfl⟩

/-- Counterexample to claim C8 as stated: a JSON record with no resolvable
name is not excluded and no error is recorded — it is returned as a product
with the placeholder name N/A, and the file error list stays empty; there is
no MissingRequiredField failure. -/
theorem nameless_record_gets_placeholder :
    (jsonFileOutcome "f.json" (.ok (.obj [("products", .arr [.obj []])]))).products.map
        (fun r => r.name) = [.str "N/A"] ∧
    (jsonFileOutcome "f.json" (.ok (.obj [("products", .arr [.obj []])]))).count = 1 ∧
    (jsonFileOutcome "f.json" (.ok (.obj [("products", .arr [.obj []])]))).errors = [] :=
  ⟨rfl, rfl, rfl⟩

/-- Claim C8 (amended): a record whose name cannot be resolved is kept, not
excluded: the JSON path returns it with placeholder name N/A (and id unknown
when the id key is also missing) and records no error, and the CSV path
resolves a row with none of its tried keys to the placeholder name unknown. -/
theorem missing_name_not_excluded (f : String) (fields : List (String × Json)) (row : CsvRow)
    (hname : alookup fields "name" = none) (hid : alookup fields "id" = none)
    (h1 : alookup row "Product Name" = none) (h2 : alookup row "Product" = none)
    (h3 : alookup row "id" = none) :
    (mkJsonProduct f (Json.obj fields)).name = Json.str "N/A" ∧
    (jsonFileOutcome f (.ok (.obj [("products", .arr [.obj fields])]))).products =
      [mkJsonProduct f (Json.obj fields)] ∧
    (jsonFileOutcome f (.ok (.obj [("products", .arr [.obj fields])]))).errors = [] ∧
    csvName row = some "unknown" := by
  have hrec : recId (Json.obj fields) = Json.str "unknown" := by
    simp [recId, Json.getD, hname, hid]
  refine ⟨?_, ?_, ?_, ?_⟩
  · simp [mkJsonProduct, Json.getD, hname]
  · simp [jsonFileOutcome, Json.getD, alookup, pyElems, jsonLoop, hrec, toKey]
  · simp [jsonFileOutcome, Json.getD, alookup, pyElems, jsonLoop, hrec, toKey]
  · unfold csvName rowGet rowGetD pyOr
    rw [h1, h2, h3]
    rfl

/-- Witness for C8 at a concrete nameless JSON record and CSV row. -/
theorem missing_name_not_excluded_witness :
    alookup [("vendor", Json.str "Acme")] "name" = none ∧
    (jsonFileOutcome "w.json"
        (.ok (.obj [("products", .arr [.obj [("vendor", Json.str "Acme")]])]))).products =
      [mkJsonProduct "w.json" (Json.obj [("vendor", Json.str "Acme")])] ∧
    csvName [("Vendor", some "Acme")] = some "unknown" :=
  ⟨rfl,
    (missing_name_not_excluded "w.json" [("vendor", Json.str "Acme")] [("Vendor", some "Acme")]
      rfl rfl rfl rfl rfl).2.1,
    (missing_name_not_excluded "w.json" [("vendor", Json.str "Acme")] [("Vendor", some "Acme")]
      rfl rfl rfl rfl rfl).2.2.2⟩
